import Mathlib

/-
Verification of the kubelet security scanner (src/kubelet_scanner/scanner.py,
src/kubelet_scanner/analyzer.py) against its natural-language specification.

The Python code is shallowly embedded: network I/O is abstracted into a
`ProbeOutcome` value describing what a single HTTPS GET attempt observed
(a response with a status code, or one of the exception classes the code
catches), and each Python function over dicts becomes a Lean function over
records.  Missing dict keys with falsy defaults become `Option` fields read
through falsy-defaulting accessors, mirroring `dict.get`.
-/

namespace KubeletScanner

/-! ## Small string utilities mirroring the Python builtins used -/

/-- Mirrors `str.lstrip('v')` on the character list: drop every leading `v`. -/
def lstripVChars : List Char → List Char
  | 'v' :: rest => lstripVChars rest
  | l => l

/-- Mirrors `version.lstrip('v')`. -/
def lstripV (s : String) : String := ⟨lstripVChars s.data⟩

/-- Mirrors `str.split('.')`: split on the dot character, keeping empty
segments; the split of the empty string is `[""]`, as in Python. -/
def splitDots : List Char → List (List Char)
  | [] => [[]]
  | '.' :: rest => [] :: splitDots rest
  | c :: rest =>
    match splitDots rest with
    | s :: ss => (c :: s) :: ss
    | [] => [[c]]

/-- Digit accumulator for `pyIntChars`. -/
def digitsAcc (acc : Nat) : List Char → Option Nat
  | [] => some acc
  | c :: rest => if c.isDigit then digitsAcc (acc * 10 + (c.toNat - 48)) rest else none

/-- Parse a nonempty all-digit character list as a natural number. -/
def digitsOnly : List Char → Option Nat
  | [] => none
  | c :: rest => if c.isDigit then digitsAcc (c.toNat - 48) rest else none

/-- Mirrors Python `int(s)` on the strings this program feeds it: an optional
sign followed by a nonempty digit run parses; anything else raises (here:
`none`).  Python additionally tolerates surrounding whitespace and inner
underscores, which never occur in version segments and are not modelled. -/
def pyIntChars : List Char → Option Int
  | [] => none
  | c :: rest =>
    if c = '+' then (digitsOnly rest).map Int.ofNat
    else if c = '-' then (digitsOnly rest).map (fun n => -(Int.ofNat n))
    else (digitsOnly (c :: rest)).map Int.ofNat

/-- Mirrors `str.lower()` on the ASCII strings the analyzer matches. -/
def asciiLower (c : Char) : Char :=
  if 'A' ≤ c ∧ c ≤ 'Z' then Char.ofNat (c.toNat + 32) else c

/-- Lower-cased character list of a string, mirroring `s.lower()`. -/
def lowerData (s : String) : List Char := s.data.map asciiLower

/-- Does `needle` occur at the head of `hay`? -/
def headMatches : List Char → List Char → Bool
  | [], _ => true
  | _ :: _, [] => false
  | a :: as, b :: bs => a == b && headMatches as bs

/-- Mirrors Python `needle in hay` substring containment on character lists. -/
def occursIn (needle : List Char) : List Char → Bool
  | [] => headMatches needle []
  | c :: cs => headMatches needle (c :: cs) || occursIn needle cs

/-- Mirrors `', '.join(parts)`. -/
def joinComma : List String → String
  | [] => ""
  | [s] => s
  | s :: rest => s ++ ", " ++ joinComma rest

/-! ## Version comparator (`KubeletScanner._compare_versions`) -/

/-- Parse every element of a list, failing as soon as one element fails —
the behaviour of a Python list comprehension whose body may raise. -/
def parseAll {β γ : Type} (f : β → Option γ) : List β → Option (List γ)
  | [] => some []
  | b :: bs =>
    match f b, parseAll f bs with
    | some c, some cs => some (c :: cs)
    | _, _ => none

/-- Parse every dot-separated segment of a version string with `int`,
failing (as the Python `try` body raises) if any segment is malformed. -/
def parseParts (s : String) : Option (List Int) :=
  parseAll pyIntChars (splitDots s.data)

/-- Index-by-index comparison of two equal-length integer lists, mirroring
the comparison loop: `-1` at the first strictly smaller position, `1` at the
first strictly greater one, `0` when the lists are exhausted. -/
def cmpSegs : List Int → List Int → Int
  | a :: as, b :: bs => if a < b then -1 else if b < a then 1 else cmpSegs as bs
  | _, _ => 0

/-- Right-pad an integer list with zeros to length `n`. -/
def padZeros (l : List Int) (n : Nat) : List Int :=
  l ++ List.replicate (n - l.length) 0

/-- Embeds `KubeletScanner._compare_versions`: split both strings on dots,
parse each segment with `int`, zero-pad to equal length and compare
lexicographically; any parse failure is caught and yields `0`. -/
def compare_versions (v1 v2 : String) : Int :=
  match parseParts v1, parseParts v2 with
  | some p1, some p2 =>
    let n := max p1.length p2.length
    cmpSegs (padZeros p1 n) (padZeros p2 n)
  | _, _ => 0

/-- Modelled from the spec's words (for the refinement comparison only):
segments parsed as non-negative integers. -/
def specParseVersion (s : String) : Option (List Nat) :=
  parseAll digitsOnly (splitDots s.data)

/-- Right-pad a natural-number list with zeros to length `n`. -/
def padZerosNat (l : List Nat) (n : Nat) : List Nat :=
  l ++ List.replicate (n - l.length) 0

/-- Modelled from the spec's words: lexicographic comparison of
zero-padded non-negative segment lists. -/
def specCmpSegs : List Nat → List Nat → Int
  | a :: as, b :: bs => if a < b then -1 else if b < a then 1 else specCmpSegs as bs
  | _, _ => 0

/-- Modelled from the spec's words: the comparison the spec describes, on
versions whose segments all parse as non-negative integers. -/
def specCompareVersions (v1 v2 : String) : Option Int :=
  match specParseVersion v1, specParseVersion v2 with
  | some p1, some p2 =>
    let n := max p1.length p2.length
    some (specCmpSegs (padZerosNat p1 n) (padZerosNat p2 n))
  | _, _ => none

/-! ## Endpoint probe (`_test_kubelet_port`, `_test_kubelet_endpoint`) -/

/-- What a single `requests.get` attempt observed: an HTTP response with a
status code, or one of the exception classes the code catches. -/
inductive ProbeOutcome where
  | response (status : Int)
  | sslError
  | connectionError
  | timeout
  | otherError (msg : String)
deriving Repr, DecidableEq

/-- The result dict built by `_test_kubelet_port` / `_test_kubelet_endpoint`. -/
structure ProbeResult where
  accessible : Bool
  anonymous_access : Bool
  status_code : Option Int
  error : Option String
deriving Repr, DecidableEq

/-- Embeds `KubeletScanner._test_kubelet_port`: classify one unauthenticated
GET against `https://ip:port/healthz`. -/
def test_kubelet_port : ProbeOutcome → ProbeResult
  | .response s =>
    { accessible := true, anonymous_access := s == 200, status_code := some s, error := none }
  | .sslError =>
    { accessible := true, anonymous_access := false, status_code := none,
      error := some "SSL verification failed (expected for kubelet)" }
  | .connectionError =>
    { accessible := false, anonymous_access := false, status_code := none,
      error := some "Connection refused or port closed" }
  | .timeout =>
    { accessible := false, anonymous_access := false, status_code := none,
      error := some "Connection timeout" }
  | .otherError m =>
    { accessible := false, anonymous_access := false, status_code := none, error := some m }

/-- Embeds `KubeletScanner._test_kubelet_endpoint`: identical classification,
with the connection-failure message worded for endpoints. -/
def test_kubelet_endpoint : ProbeOutcome → ProbeResult
  | .response s =>
    { accessible := true, anonymous_access := s == 200, status_code := some s, error := none }
  | .sslError =>
    { accessible := true, anonymous_access := false, status_code := none,
      error := some "SSL verification failed (expected for kubelet)" }
  | .connectionError =>
    { accessible := false, anonymous_access := false, status_code := none,
      error := some "Connection refused or endpoint not accessible" }
  | .timeout =>
    { accessible := false, anonymous_access := false, status_code := none,
      error := some "Connection timeout" }
  | .otherError m =>
    { accessible := false, anonymous_access := false, status_code := none, error := some m }

/-! ## CVE lookup (`_check_version_vulnerabilities`) -/

/-- One entry appended to `known_vulnerabilities`. -/
structure VulnEntry where
  cve : String
  severity : String
  affected_version : String
deriving Repr, DecidableEq

/-- The `version_vulnerabilities` dict.  In the source `recommendation`
starts as `None`; here the never-read initial value is `""`. -/
structure VersionVulns where
  version : String
  known_vulnerabilities : List VulnEntry
  is_vulnerable : Bool
  recommendation : String
  error : Option String
deriving Repr, DecidableEq

/-- The hardcoded CVE table, in the source's (insertion-ordered) dict order:
`(cve id, severity, affected-version predicate)`. -/
def critical_cves : List (String × String × String) :=
  [("CVE-2023-5528", "HIGH", "<1.28.0"),
   ("CVE-2023-5529", "HIGH", "<1.27.4"),
   ("CVE-2023-3978", "CRITICAL", "<1.27.3")]

/-- One CVE-table row's test: a `<X` predicate matches iff
`compare_versions version_num X < 0` (after stripping `v` from `X`). -/
def cveMatch (version_num : String) (entry : String × String × String) : Option VulnEntry :=
  match entry with
  | (cve, sev, affected) =>
    match affected.data with
    | '<' :: rest =>
      if compare_versions version_num (lstripV ⟨rest⟩) < 0 then
        some { cve := cve, severity := sev, affected_version := affected }
      else none
    | _ => none

/-- Embeds `KubeletScanner._check_version_vulnerabilities`. -/
def check_version_vulnerabilities (version : String) : VersionVulns :=
  let version_num := lstripV version
  if version_num = "" then
    { version := version, known_vulnerabilities := [], is_vulnerable := false,
      recommendation := "", error := some "Could not parse version" }
  else
    let vulns := critical_cves.filterMap (cveMatch version_num)
    { version := version
      known_vulnerabilities := vulns
      is_vulnerable := vulns ≠ []
      recommendation :=
        if vulns ≠ [] then
          "Upgrade kubelet to the latest patched version. Current version " ++ version ++
            " has known vulnerabilities."
        else
          "Version " ++ version ++
            " appears to be secure, but always keep kubelet updated to the latest version."
      error := none }

/-! ## Issue compilation (`_compile_issues`) -/

/-- An entry of a node's `issues` list. -/
structure Issue where
  severity : String
  type : String
  description : String
  recommendation : String
deriving Repr, DecidableEq

/-- An entry of a node's `passed_checks` list. -/
structure PassedCheck where
  check : String
  description : String
  status : String
deriving Repr, DecidableEq

/-- Mirrors `dict.get('anonymous_access')` falsiness: a missing probe result
(empty dict in the source) reads as `false`. -/
def getAnon : Option ProbeResult → Bool
  | some r => r.anonymous_access
  | none => false

/-- Mirrors `dict.get('accessible')` falsiness. -/
def getAcc : Option ProbeResult → Bool
  | some r => r.accessible
  | none => false

/-- The CRITICAL `anonymous_access_enabled` issue (default port 10250). -/
def anonymousAccessIssue : Issue :=
  { severity := "CRITICAL", type := "anonymous_access_enabled"
    description := "Anonymous authentication enabled on kubelet port 10250. Port is accessible without authentication."
    recommendation := "Disable anonymous authentication by setting --anonymous-auth=false in kubelet configuration" }

/-- The `authentication_required` passed check. -/
def authRequiredPassed : PassedCheck :=
  { check := "authentication_required"
    description := "Kubelet port 10250 requires authentication (anonymous access disabled)"
    status := "PASSED" }

/-- The CRITICAL `readonly_port_enabled` issue (port 10255). -/
def readonlyPortIssue : Issue :=
  { severity := "CRITICAL", type := "readonly_port_enabled"
    description := "Readonly port 10255 is accessible. This port should be disabled (set --read-only-port=0)"
    recommendation := "Disable readonly port by setting --read-only-port=0 in kubelet configuration" }

/-- The `readonly_port_disabled` passed check. -/
def readonlyDisabledPassed : PassedCheck :=
  { check := "readonly_port_disabled"
    description := "Readonly port 10255 is disabled (closed)"
    status := "PASSED" }

/-- The CRITICAL `authorization_mode_alwaysallow` issue. -/
def authorizationModeIssue : Issue :=
  { severity := "CRITICAL", type := "authorization_mode_alwaysallow"
    description := "Authorization mode may be set to AlwaysAllow (inferred from anonymous access)"
    recommendation := "Set --authorization-mode to Webhook or RBAC, not AlwaysAllow" }

/-- The `authorization_mode_secure` passed check. -/
def authorizationSecurePassed : PassedCheck :=
  { check := "authorization_mode_secure"
    description := "Authorization mode appears to be secure (not AlwaysAllow, authentication required)"
    status := "PASSED" }

/-- The CRITICAL `metrics_endpoint_accessible` issue. -/
def metricsAccessibleIssue : Issue :=
  { severity := "CRITICAL", type := "metrics_endpoint_accessible"
    description := "Metrics endpoint is accessible without authentication. This exposes sensitive metrics data."
    recommendation := "Restrict access to /metrics endpoint or ensure authentication is required" }

/-- The `metrics_endpoint_secured` passed check, authenticated-access wording. -/
def metricsSecuredAuthPassed : PassedCheck :=
  { check := "metrics_endpoint_secured"
    description := "Metrics endpoint requires authentication (not accessible anonymously)"
    status := "PASSED" }

/-- The `metrics_endpoint_secured` passed check, not-accessible wording. -/
def metricsSecuredClosedPassed : PassedCheck :=
  { check := "metrics_endpoint_secured"
    description := "Metrics endpoint is not accessible (properly secured)"
    status := "PASSED" }

/-- The CRITICAL `version_vulnerable` issue for a vulnerable version record. -/
def versionVulnerableIssue (v : VersionVulns) : Issue :=
  { severity := "CRITICAL", type := "version_vulnerable"
    description := "Kubelet version " ++ v.version ++ " has known vulnerabilities: " ++
      joinComma (v.known_vulnerabilities.map (fun e => e.cve))
    recommendation := v.recommendation }

/-- The `version_secure` passed check for a non-vulnerable version record. -/
def versionSecurePassed (v : VersionVulns) : PassedCheck :=
  { check := "version_secure"
    description := "Kubelet version " ++ v.version ++
      " appears to be secure (no known critical vulnerabilities)"
    status := "PASSED" }

/-- Row 1 of the rule table, issue side: anonymous access on the default port. -/
def row1Issues (d : Option ProbeResult) : List Issue :=
  if getAnon d then [anonymousAccessIssue] else []

/-- Row 1, passed side: accessible without anonymous access. -/
def row1Passed (d : Option ProbeResult) : List PassedCheck :=
  if getAnon d then [] else if getAcc d then [authRequiredPassed] else []

/-- Row 2, issue side: readonly port accessible. -/
def row2Issues (r : Option ProbeResult) : List Issue :=
  if getAcc r then [readonlyPortIssue] else []

/-- Row 2, passed side: readonly port closed (the `else` branch fires even
when the readonly probe is absent). -/
def row2Passed (r : Option ProbeResult) : List PassedCheck :=
  if getAcc r then [] else [readonlyDisabledPassed]

/-- Row 3, issue side: AlwaysAllow inferred from anonymous access. -/
def row3Issues (d : Option ProbeResult) : List Issue :=
  if getAnon d then [authorizationModeIssue] else []

/-- Row 3, passed side: accessible and not anonymous. -/
def row3Passed (d : Option ProbeResult) : List PassedCheck :=
  if getAnon d then []
  else if getAcc d && !getAnon d then [authorizationSecurePassed] else []

/-- Row 4, issue side: metrics endpoint anonymously accessible. -/
def row4Issues (m : Option ProbeResult) : List Issue :=
  if getAnon m then [metricsAccessibleIssue] else []

/-- Row 4, passed side: the two non-anonymous metrics branches of the
`if/elif/elif` chain. -/
def row4Passed (m : Option ProbeResult) : List PassedCheck :=
  if getAnon m then []
  else if getAcc m && !getAnon m then [metricsSecuredAuthPassed]
  else if !getAcc m then [metricsSecuredClosedPassed]
  else []

/-- Row 5, issue side: vulnerable version (`dict.get` falsiness on a missing
`version_vulnerabilities` key reads as not vulnerable). -/
def row5Issues (v : Option VersionVulns) : List Issue :=
  match v with
  | some v => if v.is_vulnerable then [versionVulnerableIssue v] else []
  | none => []

/-- Row 5, passed side: version present (nonempty, by Python truthiness) and
not vulnerable. -/
def row5Passed (v : Option VersionVulns) : List PassedCheck :=
  match v with
  | some v =>
    if v.is_vulnerable then []
    else if v.version = "" then [] else [versionSecurePassed v]
  | none => []

/-- The probe data `_compile_issues` reads out of `node_info`; `none` stands
for the empty dicts left when no probe was issued. -/
structure NodeScanData where
  default_port : Option ProbeResult
  readonly_port : Option ProbeResult
  metrics : Option ProbeResult
  version_vulnerabilities : Option VersionVulns
deriving Repr, DecidableEq

/-- Embeds `KubeletScanner._compile_issues`: each row appends its issue or
passed check in the source's order. -/
def compile_issues (d : NodeScanData) : List Issue × List PassedCheck :=
  (row1Issues d.default_port ++ row2Issues d.readonly_port ++ row3Issues d.default_port ++
     row4Issues d.metrics ++ row5Issues d.version_vulnerabilities,
   row1Passed d.default_port ++ row2Passed d.readonly_port ++ row3Passed d.default_port ++
     row4Passed d.metrics ++ row5Passed d.version_vulnerabilities)

/-! ## Node inspector (`_scan_node`) -/

/-- A node together with what each of its three probes would observe.  The
probe outcomes parametrize the network, which the embedding cannot perform. -/
structure NodeInput where
  name : String
  internal_ip : Option String
  kubelet_version : Option String
  default_outcome : ProbeOutcome
  readonly_outcome : ProbeOutcome
  metrics_outcome : ProbeOutcome
deriving Repr, DecidableEq

/-- Python truthiness of an optional string. -/
def truthyOpt : Option String → Bool
  | some s => s != ""
  | none => false

/-- A node's report: name plus the compiled issues and passed checks. -/
structure NodeReport where
  name : String
  issues : List Issue
  passed_checks : List PassedCheck
deriving Repr, DecidableEq

/-- Embeds `KubeletScanner._scan_node`: probe the two ports and the metrics
endpoint only when the node has a (truthy) internal IP, build the version
record only when a (truthy) version string is present, then compile. -/
def scan_node (n : NodeInput) : NodeReport :=
  let hasIp := truthyOpt n.internal_ip
  let data : NodeScanData :=
    { default_port := if hasIp then some (test_kubelet_port n.default_outcome) else none
      readonly_port := if hasIp then some (test_kubelet_port n.readonly_outcome) else none
      metrics := if hasIp then some (test_kubelet_endpoint n.metrics_outcome) else none
      version_vulnerabilities :=
        if truthyOpt n.kubelet_version then
          some (check_version_vulnerabilities (n.kubelet_version.getD ""))
        else none }
  let c := compile_issues data
  { name := n.name, issues := c.1, passed_checks := c.2 }

/-! ## Cluster scanner (`scan_kubelet_config`) -/

/-- A `{node, issue}` entry of `summary.critical_issues` / `summary.warnings`. -/
structure SummaryEntry where
  node : String
  issue : String
deriving Repr, DecidableEq

/-- A `{node, check, description}` entry of `summary.passed_checks`. -/
structure PassedEntry where
  node : String
  check : String
  description : String
deriving Repr, DecidableEq

/-- The scan summary dict. -/
structure Summary where
  total_nodes : Nat
  nodes_with_issues : Nat
  critical_issues : List SummaryEntry
  warnings : List SummaryEntry
  passed_checks : List PassedEntry
deriving Repr, DecidableEq

/-- The summary as initialized at the top of `scan_kubelet_config`. -/
def emptySummary : Summary :=
  { total_nodes := 0, nodes_with_issues := 0, critical_issues := [], warnings := [],
    passed_checks := [] }

/-- The top-level scan result.  `scan_time` (a wall-clock timestamp) is not
modelled; `status := none` stands for the key being absent from the dict. -/
structure ScanReport where
  nodes : List NodeReport
  summary : Summary
  status : Option String
  error : Option String
deriving Repr, DecidableEq

/-- One loop iteration's summary update: bump `nodes_with_issues` when the
node has issues, file CRITICAL/WARNING issues, and aggregate passed checks. -/
def updateSummary (s : Summary) (r : NodeReport) : Summary :=
  { total_nodes := s.total_nodes
    nodes_with_issues := s.nodes_with_issues + (if r.issues ≠ [] then 1 else 0)
    critical_issues := s.critical_issues ++ r.issues.filterMap (fun i =>
      if i.severity == "CRITICAL" then some { node := r.name, issue := i.description } else none)
    warnings := s.warnings ++ r.issues.filterMap (fun i =>
      if i.severity == "CRITICAL" then none
      else if i.severity == "WARNING" then some { node := r.name, issue := i.description }
      else none)
    passed_checks := s.passed_checks ++ r.passed_checks.map (fun p =>
      { node := r.name, check := p.check, description := p.description }) }

/-- The overall-status computation after the node loop. -/
def computeStatus (s : Summary) : String :=
  match s.critical_issues, s.warnings with
  | _ :: _, _ => "CRITICAL"
  | [], _ :: _ => "WARNING"
  | [], [] => "HEALTHY"

/-- The node loop of `scan_kubelet_config`.  Inspecting a node may raise
(`Except.error`), in which case the surrounding `try/except` stops the loop
and stores the handler's formatted message in the report's `error` field,
leaving `status` unset. -/
def scanGo {α : Type} (inspect : α → Except String NodeReport) :
    List α → Summary → List NodeReport → ScanReport
  | [], s, acc =>
    { nodes := acc, summary := s, status := some (computeStatus s), error := none }
  | n :: rest, s, acc =>
    match inspect n with
    | .ok r => scanGo inspect rest (updateSummary s r) (acc ++ [r])
    | .error e => { nodes := acc, summary := s, status := none, error := some e }

/-- Embeds `KubeletScanner.scan_kubelet_config`.  The node inventory is the
external collaborator's answer: `Except.error` covers both the
client-unavailable early return and a raising `list_node()` call, carrying
the handler's formatted message.  `inspect` is the per-node inspection,
which may itself raise. -/
def scan_kubelet_config {α : Type} (inventory : Except String (List α))
    (inspect : α → Except String NodeReport) : ScanReport :=
  match inventory with
  | .error e => { nodes := [], summary := emptySummary, status := none, error := some e }
  | .ok ns => scanGo inspect ns { emptySummary with total_nodes := ns.length } []

end KubeletScanner

namespace KubeletAnalyzer

open KubeletScanner

/-- The analyzer's anonymous-authentication remediation line. -/
def recAnonymous : String :=
  "Disable anonymous authentication on kubelet by setting --anonymous-auth=false"

/-- The analyzer's readonly-port remediation line. -/
def recReadonly : String :=
  "Disable readonly port by setting --read-only-port=0 in kubelet configuration"

/-- The first general hardening line. -/
def recGeneral1 : String :=
  "Review and harden kubelet security configuration on all nodes"

/-- The second general hardening line. -/
def recGeneral2 : String :=
  "Ensure kubelet ports are not exposed to the internet"

/-- The all-clear line emitted when no recommendation was generated. -/
def recAllClear : String :=
  "No critical issues found. Continue monitoring kubelet security."

/-- Does the risk's lower-cased description contain `needle`?  Mirrors
`needle in risk.get('issue', '').lower()`. -/
def riskMentions (needle : String) (r : SummaryEntry) : Bool :=
  occursIn needle.data (lowerData r.issue)

/-- Embeds `KubeletAnalyzer._generate_recommendations`: one anonymous-auth
line per critical risk mentioning "anonymous", then one readonly-port line
per critical risk mentioning "readonly", then the two general lines when any
critical risk exists; the all-clear line when nothing was appended. -/
def generate_recommendations (critical_risks : List SummaryEntry) : List String :=
  let anons := critical_risks.filterMap (fun r =>
    if riskMentions "anonymous" r then some recAnonymous else none)
  let readonlys := critical_risks.filterMap (fun r =>
    if riskMentions "readonly" r then some recReadonly else none)
  let generals := if critical_risks ≠ [] then [recGeneral1, recGeneral2] else []
  let recs := anons ++ readonlys ++ generals
  if recs = [] then [recAllClear] else recs

end KubeletAnalyzer

/-! ## Lemmas about the version comparator -/

namespace KubeletScanner

theorem cmpSegs_self : ∀ l : List Int, cmpSegs l l = 0 := by
  intro l
  induction l with
  | nil => rfl
  | cons a as ih => simp [cmpSegs, ih]

theorem cmpSegs_range : ∀ l1 l2 : List Int,
    cmpSegs l1 l2 = -1 ∨ cmpSegs l1 l2 = 0 ∨ cmpSegs l1 l2 = 1 := by
  intro l1
  induction l1 with
  | nil => intro l2; cases l2 <;> simp [cmpSegs]
  | cons a as ih =>
    intro l2
    cases l2 with
    | nil => simp [cmpSegs]
    | cons b bs =>
      by_cases h1 : a < b
      · simp [cmpSegs, h1]
      · by_cases h2 : b < a
        · simp [cmpSegs, h1, h2]
        · simpa [cmpSegs, h1, h2] using ih bs

theorem compare_versions_self (v : String) : compare_versions v v = 0 := by
  unfold compare_versions
  cases h : parseParts v with
  | none => simp
  | some p => simp [cmpSegs_self]

theorem compare_versions_range (v1 v2 : String) :
    compare_versions v1 v2 = -1 ∨ compare_versions v1 v2 = 0 ∨ compare_versions v1 v2 = 1 := by
  unfold compare_versions
  cases h1 : parseParts v1 with
  | none => simp
  | some p1 =>
    cases h2 : parseParts v2 with
    | none => simp
    | some p2 => simpa using cmpSegs_range _ _

theorem compare_versions_malformed (v1 v2 : String)
    (h : parseParts v1 = none ∨ parseParts v2 = none) : compare_versions v1 v2 = 0 := by
  unfold compare_versions
  rcases h with h | h
  · simp [h]
  · cases h1 : parseParts v1 <;> simp [h, h1]

theorem pyInt_of_digits (cs : List Char) (n : Nat) (h : digitsOnly cs = some n) :
    pyIntChars cs = some (Int.ofNat n) := by
  cases cs with
  | nil => simp [digitsOnly] at h
  | cons c rest =>
    have hd : c.isDigit = true := by
      by_cases hc : c.isDigit
      · exact hc
      · simp [digitsOnly, hc] at h
    have h1 : c ≠ '+' := by intro he; rw [he] at hd; exact absurd hd (by decide)
    have h2 : c ≠ '-' := by intro he; rw [he] at hd; exact absurd hd (by decide)
    simp [pyIntChars, h1, h2, h]

theorem parseAll_digits_agree : ∀ (l : List (List Char)) (ns : List Nat),
    parseAll digitsOnly l = some ns →
    parseAll pyIntChars l = some (ns.map Int.ofNat) := by
  intro l
  induction l with
  | nil =>
    intro ns h
    simp [parseAll] at h
    simp [parseAll, ← h]
  | cons b bs ih =>
    intro ns h
    cases hb : digitsOnly b with
    | none => simp [parseAll, hb] at h
    | some n =>
      cases hbs : parseAll digitsOnly bs with
      | none => simp [parseAll, hb, hbs] at h
      | some ms =>
        simp [parseAll, hb, hbs] at h
        simp [parseAll, pyInt_of_digits b n hb, ih ms hbs, ← h]

theorem cmpSegs_map : ∀ l1 l2 : List Nat,
    cmpSegs (l1.map Int.ofNat) (l2.map Int.ofNat) = specCmpSegs l1 l2 := by
  intro l1
  induction l1 with
  | nil => intro l2; cases l2 <;> simp [cmpSegs, specCmpSegs]
  | cons a as ih =>
    intro l2
    cases l2 with
    | nil => simp [cmpSegs, specCmpSegs]
    | cons b bs => simp [cmpSegs, specCmpSegs, Int.ofNat_lt, ih bs]

theorem padZeros_map (l : List Nat) (n : Nat) :
    padZeros (l.map Int.ofNat) n = (padZerosNat l n).map Int.ofNat := by
  simp [padZeros, padZerosNat, List.map_replicate]

theorem compare_versions_refines_spec (v1 v2 : String) (c : Int)
    (h : specCompareVersions v1 v2 = some c) : compare_versions v1 v2 = c := by
  unfold specCompareVersions at h
  cases h1 : specParseVersion v1 with
  | none => rw [h1] at h; exact absurd h (by simp)
  | some q1 =>
    cases h2 : specParseVersion v2 with
    | none => rw [h1, h2] at h; exact absurd h (by simp)
    | some q2 =>
      rw [h1, h2] at h
      simp at h
      have p1 := parseAll_digits_agree _ _ h1
      have p2 := parseAll_digits_agree _ _ h2
      unfold compare_versions parseParts
      rw [p1, p2]
      simp [padZeros_map, cmpSegs_map, ← h]

end KubeletScanner

namespace KubeletScanner

/-- C3: the version comparator returns a value in {-1, 0, 1}; any version
with a non-numeric segment makes it return 0 instead of raising; it is
reflexive; `compare("1.2.0","1.2") = 0` and `compare("1.27.3","1.28.0") < 0`;
and on versions whose segments all parse as non-negative integers it computes
exactly the spec's split / parse / zero-pad / lexicographic comparison. -/
theorem c3_version_comparator :
    (∀ v1 v2 : String,
      compare_versions v1 v2 = -1 ∨ compare_versions v1 v2 = 0 ∨ compare_versions v1 v2 = 1) ∧
    (∀ v1 v2 : String, parseParts v1 = none ∨ parseParts v2 = none →
      compare_versions v1 v2 = 0) ∧
    (∀ v : String, compare_versions v v = 0) ∧
    compare_versions "1.2.0" "1.2" = 0 ∧
    compare_versions "1.27.3" "1.28.0" < 0 ∧
    (∀ (v1 v2 : String) (c : Int), specCompareVersions v1 v2 = some c →
      compare_versions v1 v2 = c) :=
  ⟨compare_versions_range, compare_versions_malformed, compare_versions_self,
    by decide, by decide, compare_versions_refines_spec⟩

/-- C3 witness: the malformed-segment clause at `("1.a", "1.0")` and the
refinement clause at `("1.27.3", "1.28.0")`, both discharged concretely. -/
theorem c3_version_comparator_witness :
    compare_versions "1.a" "1.0" = 0 ∧ compare_versions "1.27.3" "1.28.0" = -1 :=
  ⟨c3_version_comparator.2.1 "1.a" "1.0" (Or.inl (by decide)),
    c3_version_comparator.2.2.2.2.2 "1.27.3" "1.28.0" (-1) (by decide)⟩

end KubeletScanner

/-! ## Lemmas about the cluster scanner -/

namespace KubeletScanner

theorem scanGo_status_eq {α : Type} (inspect : α → Except String NodeReport) :
    ∀ (ns : List α) (s : Summary) (acc : List NodeReport) (st : String),
    (scanGo inspect ns s acc).status = some st →
    st = computeStatus (scanGo inspect ns s acc).summary := by
  intro ns
  induction ns with
  | nil =>
    intro s acc st h
    simp [scanGo] at h ⊢
    exact h.symm
  | cons n rest ih =>
    intro s acc st h
    cases hi : inspect n with
    | ok r =>
      rw [scanGo, hi] at h ⊢
      exact ih _ _ _ h
    | error e =>
      rw [scanGo, hi] at h
      simp at h

theorem scanGo_total_nodes {α : Type} (inspect : α → Except String NodeReport) :
    ∀ (ns : List α) (s : Summary) (acc : List NodeReport),
    (scanGo inspect ns s acc).summary.total_nodes = s.total_nodes := by
  intro ns
  induction ns with
  | nil => intro s acc; rfl
  | cons n rest ih =>
    intro s acc
    cases hi : inspect n with
    | ok r =>
      rw [scanGo, hi]
      rw [ih]
      rfl
    | error e => rw [scanGo, hi]

theorem scanGo_nil_error {α : Type} (inspect : α → Except String NodeReport)
    (s : Summary) (acc : List NodeReport) : (scanGo inspect [] s acc).error = none := rfl

/-- C2: whenever the scan reached aggregation (its `status` key is set), the
status is CRITICAL iff `summary.critical_issues` is non-empty, WARNING iff
that list is empty and `summary.warnings` is non-empty, and HEALTHY iff both
lists are empty. -/
theorem c2_overall_status {α : Type} (inventory : Except String (List α))
    (inspect : α → Except String NodeReport) (st : String)
    (h : (scan_kubelet_config inventory inspect).status = some st) :
    (st = "CRITICAL" ↔
      (scan_kubelet_config inventory inspect).summary.critical_issues ≠ []) ∧
    (st = "WARNING" ↔
      (scan_kubelet_config inventory inspect).summary.critical_issues = [] ∧
      (scan_kubelet_config inventory inspect).summary.warnings ≠ []) ∧
    (st = "HEALTHY" ↔
      (scan_kubelet_config inventory inspect).summary.critical_issues = [] ∧
      (scan_kubelet_config inventory inspect).summary.warnings = []) := by
  cases hinv : inventory with
  | error e => rw [hinv] at h; simp [scan_kubelet_config] at h
  | ok ns =>
    rw [hinv] at h
    simp only [scan_kubelet_config] at h ⊢
    have hst := scanGo_status_eq inspect _ _ _ _ h
    subst hst
    cases hc : (scanGo inspect ns { emptySummary with total_nodes := ns.length } []).summary.critical_issues with
    | cons a l => simp [computeStatus, hc]
    | nil =>
      cases hw : (scanGo inspect ns { emptySummary with total_nodes := ns.length } []).summary.warnings with
      | cons a l => simp [computeStatus, hc, hw]
      | nil => simp [computeStatus, hc, hw]

/-- C2 witness: the empty inventory aggregates to status HEALTHY, and the
theorem instantiated there yields the HEALTHY characterization. -/
theorem c2_overall_status_witness :
    ("HEALTHY" = "HEALTHY" ↔
      (scan_kubelet_config (Except.ok ([] : List Nat))
          (fun _ => Except.error "Error: boom")).summary.critical_issues = [] ∧
      (scan_kubelet_config (Except.ok ([] : List Nat))
          (fun _ => Except.error "Error: boom")).summary.warnings = []) :=
  (c2_overall_status (Except.ok ([] : List Nat)) (fun _ => Except.error "Error: boom")
    "HEALTHY" rfl).2.2

end KubeletScanner

namespace KubeletScanner

/-- C5: an inventory failure (the client-unavailable early return or a
raising `list_node()`) yields the report with the error set, no nodes, a
zeroed summary and no status; and conversely a report with an error set and
`total_nodes = 0` can only come from an inventory failure, so this is the
only failure path producing an empty whole-scan failure report. -/
theorem c5_inventory_failure {α : Type} (inventory : Except String (List α))
    (inspect : α → Except String NodeReport) :
    (∀ e, inventory = Except.error e →
      scan_kubelet_config inventory inspect =
        { nodes := [], summary := emptySummary, status := none, error := some e }) ∧
    ((scan_kubelet_config inventory inspect).error.isSome = true →
      (scan_kubelet_config inventory inspect).summary.total_nodes = 0 →
      ∃ e, inventory = Except.error e) := by
  constructor
  · intro e h
    rw [h]
    rfl
  · intro h1 h2
    cases hinv : inventory with
    | error e => exact ⟨e, rfl⟩
    | ok ns =>
      rw [hinv] at h1 h2
      exfalso
      cases ns with
      | nil =>
        rw [scan_kubelet_config, scanGo] at h1
        simp at h1
      | cons n rest =>
        rw [scan_kubelet_config, scanGo_total_nodes] at h2
        simp at h2

/-- C5 witness: the theorem applied to a concretely failing inventory. -/
theorem c5_inventory_failure_witness :
    scan_kubelet_config (Except.error "API error: boom")
        (fun _ : Nat => Except.ok { name := "n", issues := [], passed_checks := [] }) =
      { nodes := [], summary := emptySummary, status := none,
        error := some "API error: boom" } :=
  (c5_inventory_failure (Except.error "API error: boom")
    (fun _ : Nat => Except.ok { name := "n", issues := [], passed_checks := [] })).1
    "API error: boom" rfl

/-- Helper for C6: the scanner loop, run over inspectable nodes followed by a
node whose inspection raises, keeps the earlier reports, stores the error
message, stops before the remaining nodes and leaves the status unset. -/
theorem scanGo_stops_at_error {α : Type} (inspect : α → Except String NodeReport)
    (bad : α) (rest : List α) (e : String) (hbad : inspect bad = Except.error e) :
    ∀ (pre : List α) (rs : List NodeReport),
    List.Forall₂ (fun n r => inspect n = Except.ok r) pre rs →
    ∀ (s : Summary) (acc : List NodeReport),
    (scanGo inspect (pre ++ bad :: rest) s acc).nodes = acc ++ rs ∧
    (scanGo inspect (pre ++ bad :: rest) s acc).error = some e ∧
    (scanGo inspect (pre ++ bad :: rest) s acc).status = none := by
  intro pre rs hall
  induction hall with
  | nil =>
    intro s acc
    rw [List.nil_append, scanGo, hbad]
    simp
  | cons ha htail ih =>
    intro s acc
    rw [List.cons_append, scanGo, ha]
    rcases ih (updateSummary s _) (acc ++ [_]) with ⟨h1, h2, h3⟩
    exact ⟨by rw [h1, List.append_assoc, List.singleton_append], h2, h3⟩

/-- C6 counterexample inspector: node `0` raises, node `1` inspects fine. -/
def inspectRaisesOnZero : Nat → Except String NodeReport := fun n =>
  if n = 0 then Except.error "Error: boom"
  else Except.ok { name := "n1", issues := [], passed_checks := [] }

/-- C6 counterexample: with inventory `[0, 1]` where inspecting node `0`
raises and node `1` is perfectly inspectable, the scan does not continue to
node `1` — the returned report contains no node report at all, only the
top-level error — refuting that a per-node exception lets the scan continue
with the next node. -/
theorem c6_counterexample :
    (scan_kubelet_config (Except.ok [0, 1]) inspectRaisesOnZero).nodes = [] ∧
    (scan_kubelet_config (Except.ok [0, 1]) inspectRaisesOnZero).error = some "Error: boom" ∧
    inspectRaisesOnZero 1 = Except.ok { name := "n1", issues := [], passed_checks := [] } :=
  ⟨rfl, rfl, rfl⟩

/-- C6 as amended: an exception inspecting one node never raises past the
scan boundary, but it aborts the per-node loop instead of continuing — the
scan returns a report keeping exactly the reports of the nodes already
inspected, carrying the top-level error string, with no status. -/
theorem c6_node_exception_behaviour {α : Type} (inspect : α → Except String NodeReport)
    (pre : List α) (rs : List NodeReport) (bad : α) (rest : List α) (e : String)
    (hpre : List.Forall₂ (fun n r => inspect n = Except.ok r) pre rs)
    (hbad : inspect bad = Except.error e) :
    (scan_kubelet_config (Except.ok (pre ++ bad :: rest)) inspect).nodes = rs ∧
    (scan_kubelet_config (Except.ok (pre ++ bad :: rest)) inspect).error = some e ∧
    (scan_kubelet_config (Except.ok (pre ++ bad :: rest)) inspect).status = none := by
  rw [scan_kubelet_config]
  rcases scanGo_stops_at_error inspect bad rest e hbad pre rs hpre
      { emptySummary with total_nodes := (pre ++ bad :: rest).length } [] with ⟨h1, h2, h3⟩
  exact ⟨by rw [h1, List.nil_append], h2, h3⟩

/-- C6 witness: the amended theorem at inventory `[1, 0]` under the same
concrete inspector, where node `1` is inspected first and node `0` raises:
node `1`'s report is kept, the error is stored and the status left unset. -/
theorem c6_node_exception_behaviour_witness :
    (scan_kubelet_config (Except.ok [1, 0]) inspectRaisesOnZero).nodes =
      [{ name := "n1", issues := [], passed_checks := [] }] ∧
    (scan_kubelet_config (Except.ok [1, 0]) inspectRaisesOnZero).error = some "Error: boom" ∧
    (scan_kubelet_config (Except.ok [1, 0]) inspectRaisesOnZero).status = none :=
  c6_node_exception_behaviour inspectRaisesOnZero [1]
    [{ name := "n1", issues := [], passed_checks := [] }] 0 [] "Error: boom"
    (List.Forall₂.cons rfl List.Forall₂.nil) rfl

end KubeletScanner

/-! ## Presence of issue and passed-check tags in a node report -/

namespace KubeletScanner

/-- Does the issue list contain an issue of the given type tag? -/
def hasIssueType (l : List Issue) (t : String) : Bool :=
  l.any (fun i => i.type == t)

/-- Does the passed-check list contain a check with the given tag? -/
def hasCheck (l : List PassedCheck) (c : String) : Bool :=
  l.any (fun p => p.check == c)

theorem hasIssueType_append (l1 l2 : List Issue) (t : String) :
    hasIssueType (l1 ++ l2) t = (hasIssueType l1 t || hasIssueType l2 t) := by
  simp [hasIssueType]

theorem hasCheck_append (l1 l2 : List PassedCheck) (c : String) :
    hasCheck (l1 ++ l2) c = (hasCheck l1 c || hasCheck l2 c) := by
  simp [hasCheck]

theorem row1Issues_anon (d : Option ProbeResult) :
    hasIssueType (row1Issues d) "anonymous_access_enabled" = getAnon d := by
  unfold row1Issues
  cases h : getAnon d <;> simp [h, hasIssueType, anonymousAccessIssue]

theorem row2Issues_anon (r : Option ProbeResult) :
    hasIssueType (row2Issues r) "anonymous_access_enabled" = false := by
  unfold row2Issues
  cases h : getAcc r <;> simp [h, hasIssueType, readonlyPortIssue]

theorem row3Issues_anon (d : Option ProbeResult) :
    hasIssueType (row3Issues d) "anonymous_access_enabled" = false := by
  unfold row3Issues
  cases h : getAnon d <;> simp [h, hasIssueType, authorizationModeIssue]

theorem row4Issues_anon (m : Option ProbeResult) :
    hasIssueType (row4Issues m) "anonymous_access_enabled" = false := by
  unfold row4Issues
  cases h : getAnon m <;> simp [h, hasIssueType, metricsAccessibleIssue]

theorem row5Issues_anon (v : Option VersionVulns) :
    hasIssueType (row5Issues v) "anonymous_access_enabled" = false := by
  unfold row5Issues
  cases v with
  | none => simp [hasIssueType]
  | some vv =>
    cases h : vv.is_vulnerable <;> simp [h, hasIssueType, versionVulnerableIssue]

theorem row1Passed_auth (d : Option ProbeResult) :
    hasCheck (row1Passed d) "authentication_required" = (!getAnon d && getAcc d) := by
  unfold row1Passed
  cases h1 : getAnon d <;> cases h2 : getAcc d <;>
    simp [h1, h2, hasCheck, authRequiredPassed]

theorem row2Passed_auth (r : Option ProbeResult) :
    hasCheck (row2Passed r) "authentication_required" = false := by
  unfold row2Passed
  cases h : getAcc r <;> simp [h, hasCheck, readonlyDisabledPassed]

theorem row3Passed_auth (d : Option ProbeResult) :
    hasCheck (row3Passed d) "authentication_required" = false := by
  unfold row3Passed
  cases h1 : getAnon d <;> cases h2 : getAcc d <;>
    simp [h1, h2, hasCheck, authorizationSecurePassed]

theorem row4Passed_auth (m : Option ProbeResult) :
    hasCheck (row4Passed m) "authentication_required" = false := by
  unfold row4Passed
  cases h1 : getAnon m <;> cases h2 : getAcc m <;>
    simp [h1, h2, hasCheck, metricsSecuredAuthPassed, metricsSecuredClosedPassed]

theorem row5Passed_auth (v : Option VersionVulns) :
    hasCheck (row5Passed v) "authentication_required" = false := by
  unfold row5Passed
  cases v with
  | none => simp [hasCheck]
  | some vv =>
    cases h : vv.is_vulnerable
    · by_cases h2 : vv.version = "" <;> simp [h, h2, hasCheck, versionSecurePassed]
    · simp [h, hasCheck]

theorem anon_implies_accessible (o : ProbeOutcome)
    (h : (test_kubelet_port o).anonymous_access = true) :
    (test_kubelet_port o).accessible = true := by
  cases o <;> simp_all [test_kubelet_port]

end KubeletScanner

namespace KubeletScanner

/-- C1 counterexample node: probed (has an IP), default-port probe hits a TLS
error — an errored probe with no status code. -/
def c1Node : NodeInput :=
  { name := "node-tls", internal_ip := some "10.0.0.1", kubelet_version := none,
    default_outcome := ProbeOutcome.sslError,
    readonly_outcome := ProbeOutcome.connectionError,
    metrics_outcome := ProbeOutcome.connectionError }

/-- C1 counterexample: a default-port probe that errors without a status code
(a TLS error) is claimed to yield neither the anonymous-access issue nor the
authentication-required passed check; the code, however, marks a TLS-error
port accessible, so the authentication_required passed check IS present. -/
theorem c1_counterexample :
    (test_kubelet_port ProbeOutcome.sslError).status_code = none ∧
    hasIssueType (scan_node c1Node).issues "anonymous_access_enabled" = false ∧
    hasCheck (scan_node c1Node).passed_checks "authentication_required" = true :=
  ⟨rfl, by decide, by decide⟩

/-- C1 as amended: for every probed node, exactly one of the
anonymous-access issue and the authentication-required passed check is
present iff the default-port probe marked the port accessible — which covers
both a definitive status code and a TLS error — and the issue side fires iff
the probe saw anonymous access (HTTP 200); when the probe failed without
marking the port accessible (connection refused, timeout, other transport
error), neither is present. -/
theorem c1_default_port_dichotomy (n : NodeInput) (h : truthyOpt n.internal_ip = true) :
    (Bool.xor (hasIssueType (scan_node n).issues "anonymous_access_enabled")
        (hasCheck (scan_node n).passed_checks "authentication_required"))
      = (test_kubelet_port n.default_outcome).accessible ∧
    hasIssueType (scan_node n).issues "anonymous_access_enabled"
      = (test_kubelet_port n.default_outcome).anonymous_access := by
  have hI : hasIssueType (scan_node n).issues "anonymous_access_enabled"
      = (test_kubelet_port n.default_outcome).anonymous_access := by
    simp [scan_node, h, compile_issues, hasIssueType_append, row1Issues_anon,
      row2Issues_anon, row3Issues_anon, row4Issues_anon, row5Issues_anon, getAnon]
  have hP : hasCheck (scan_node n).passed_checks "authentication_required"
      = (!(test_kubelet_port n.default_outcome).anonymous_access &&
          (test_kubelet_port n.default_outcome).accessible) := by
    simp [scan_node, h, compile_issues, hasCheck_append, row1Passed_auth,
      row2Passed_auth, row3Passed_auth, row4Passed_auth, row5Passed_auth, getAnon, getAcc]
  refine ⟨?_, hI⟩
  rw [hI, hP]
  cases hA : (test_kubelet_port n.default_outcome).anonymous_access with
  | true => rw [anon_implies_accessible _ hA]; rfl
  | false => simp

/-- C1 witness: the amended dichotomy applied to the concrete TLS-error node. -/
theorem c1_default_port_dichotomy_witness :
    (Bool.xor (hasIssueType (scan_node c1Node).issues "anonymous_access_enabled")
        (hasCheck (scan_node c1Node).passed_checks "authentication_required"))
      = (test_kubelet_port c1Node.default_outcome).accessible ∧
    hasIssueType (scan_node c1Node).issues "anonymous_access_enabled"
      = (test_kubelet_port c1Node.default_outcome).anonymous_access :=
  c1_default_port_dichotomy c1Node rfl

end KubeletScanner

namespace KubeletScanner

/-- C4 counterexample: on a refused connection the probe's error message is
"Connection refused or port closed" with a capital C, not the claimed
all-lowercase "connection refused or port closed" (likewise "Connection
timeout" for the timeout case). -/
theorem c4_counterexample :
    (test_kubelet_port ProbeOutcome.connectionError).error
        = some "Connection refused or port closed" ∧
    (test_kubelet_port ProbeOutcome.connectionError).error
        ≠ some "connection refused or port closed" ∧
    (test_kubelet_port ProbeOutcome.timeout).error ≠ some "connection timeout" :=
  ⟨rfl, by decide, by decide⟩

/-- C4 as amended: a 200 response yields accessible with anonymous access and
status 200 recorded; any other status yields accessible without anonymous
access and that status recorded; a refused connection yields not accessible
with error "Connection refused or port closed"; a timeout under the fixed
5-second budget yields not accessible with error "Connection timeout". -/
theorem c4_port_probe_outcomes :
    (∀ s : Int, s = 200 → test_kubelet_port (ProbeOutcome.response s) =
      { accessible := true, anonymous_access := true, status_code := some 200,
        error := none }) ∧
    (∀ s : Int, s ≠ 200 → test_kubelet_port (ProbeOutcome.response s) =
      { accessible := true, anonymous_access := false, status_code := some s,
        error := none }) ∧
    test_kubelet_port ProbeOutcome.connectionError =
      { accessible := false, anonymous_access := false, status_code := none,
        error := some "Connection refused or port closed" } ∧
    test_kubelet_port ProbeOutcome.timeout =
      { accessible := false, anonymous_access := false, status_code := none,
        error := some "Connection timeout" } := by
  refine ⟨?_, ?_, rfl, rfl⟩
  · intro s hs
    subst hs
    rfl
  · intro s hs
    have hb : (s == 200) = false := beq_eq_false_iff_ne.mpr hs
    simp [test_kubelet_port, hb]

/-- C4 witness: the response clauses discharged at statuses 200 and 401. -/
theorem c4_port_probe_outcomes_witness :
    test_kubelet_port (ProbeOutcome.response 200) =
      { accessible := true, anonymous_access := true, status_code := some 200,
        error := none } ∧
    test_kubelet_port (ProbeOutcome.response 401) =
      { accessible := true, anonymous_access := false, status_code := some 401,
        error := none } :=
  ⟨c4_port_probe_outcomes.1 200 rfl, c4_port_probe_outcomes.2.1 401 (by decide)⟩

end KubeletScanner

namespace KubeletScanner

/-- C7 claimed-scenario node: every probe answers 401, version v1.29.0. -/
def c7ClaimNode : NodeInput :=
  { name := "node-401", internal_ip := some "10.0.0.2",
    kubelet_version := some "v1.29.0",
    default_outcome := ProbeOutcome.response 401,
    readonly_outcome := ProbeOutcome.response 401,
    metrics_outcome := ProbeOutcome.response 401 }

/-- C7 counterexample: when all probes (including the readonly port) answer
401, the issues list is NOT empty — a 401 response still marks the readonly
port accessible, which is a CRITICAL `readonly_port_enabled` issue — and the
passed checks lack `readonly_port_disabled`, contradicting the claimed
outcome. -/
theorem c7_counterexample :
    (scan_node c7ClaimNode).issues.map (fun i => i.type) = ["readonly_port_enabled"] ∧
    (scan_node c7ClaimNode).passed_checks.map (fun p => p.check) =
      ["authentication_required", "authorization_mode_secure",
        "metrics_endpoint_secured", "version_secure"] ∧
    (scan_node c7ClaimNode).issues ≠ [] :=
  ⟨by decide, by decide, by decide⟩

/-- C7 amended-scenario node: default port and metrics answer non-200;
the readonly port refuses the connection; version v1.29.0. -/
def c7Node (sd sm : Int) : NodeInput :=
  { name := "node-secure", internal_ip := some "10.0.0.2",
    kubelet_version := some "v1.29.0",
    default_outcome := ProbeOutcome.response sd,
    readonly_outcome := ProbeOutcome.connectionError,
    metrics_outcome := ProbeOutcome.response sm }

/-- C7 as amended: with non-200 statuses on the default port and the metrics
endpoint, a refused connection on the readonly port, and version v1.29.0,
the node report has no issues and exactly the five passed checks
authentication_required, readonly_port_disabled, authorization_mode_secure,
metrics_endpoint_secured, version_secure, in that order. -/
theorem c7_all_secure_scenario (sd sm : Int) (hd : sd ≠ 200) (hm : sm ≠ 200) :
    (scan_node (c7Node sd sm)).issues = [] ∧
    (scan_node (c7Node sd sm)).passed_checks.map (fun p => p.check) =
      ["authentication_required", "readonly_port_disabled",
        "authorization_mode_secure", "metrics_endpoint_secured", "version_secure"] := by
  have hbd : (sd == 200) = false := beq_eq_false_iff_ne.mpr hd
  have hbm : (sm == 200) = false := beq_eq_false_iff_ne.mpr hm
  have hv : (check_version_vulnerabilities "v1.29.0").is_vulnerable = false := by decide
  have hvn : ((check_version_vulnerabilities "v1.29.0").version = "") = False := by
    simp; decide
  constructor <;>
    simp [c7Node, scan_node, truthyOpt, compile_issues, test_kubelet_port,
      test_kubelet_endpoint, row1Issues, row2Issues, row3Issues, row4Issues, row5Issues,
      row1Passed, row2Passed, row3Passed, row4Passed, row5Passed, getAnon, getAcc,
      hbd, hbm, hv, hvn, versionSecurePassed, authRequiredPassed, readonlyDisabledPassed,
      authorizationSecurePassed, metricsSecuredAuthPassed]

/-- C7 witness: the amended scenario at concrete 401 statuses. -/
theorem c7_all_secure_scenario_witness :
    (scan_node (c7Node 401 401)).issues = [] ∧
    (scan_node (c7Node 401 401)).passed_checks.map (fun p => p.check) =
      ["authentication_required", "readonly_port_disabled",
        "authorization_mode_secure", "metrics_endpoint_secured", "version_secure"] :=
  c7_all_secure_scenario 401 401 (by decide) (by decide)

end KubeletScanner

namespace KubeletScanner

/-- C8 scenario node: default port answers 200, readonly port refuses the
connection, version v1.27.2; the metrics probe outcome is a parameter. -/
def c8Node (mo : ProbeOutcome) : NodeInput :=
  { name := "node-anon", internal_ip := some "10.0.0.3",
    kubelet_version := some "v1.27.2",
    default_outcome := ProbeOutcome.response 200,
    readonly_outcome := ProbeOutcome.connectionError,
    metrics_outcome := mo }

/-- C8 counterexample: in the claimed scenario (default port 200, readonly
refused, version v1.27.2 — metrics probe refused here), the passed checks
are [readonly_port_disabled, metrics_endpoint_secured], not the claimed
[readonly_port_disabled] alone: the metrics row of the rule table always
contributes.  Moreover the version_vulnerable issue lists all three matching
CVEs, not only CVE-2023-3978. -/
theorem c8_counterexample :
    (scan_node (c8Node ProbeOutcome.connectionError)).passed_checks.map (fun p => p.check)
        = ["readonly_port_disabled", "metrics_endpoint_secured"] ∧
    (scan_node (c8Node ProbeOutcome.connectionError)).passed_checks.map (fun p => p.check)
        ≠ ["readonly_port_disabled"] ∧
    (scan_node (c8Node ProbeOutcome.connectionError)).issues.map (fun i => i.description) =
      ["Anonymous authentication enabled on kubelet port 10250. Port is accessible without authentication.",
        "Authorization mode may be set to AlwaysAllow (inferred from anonymous access)",
        "Kubelet version v1.27.2 has known vulnerabilities: CVE-2023-5528, CVE-2023-5529, CVE-2023-3978"] :=
  ⟨by decide, by decide, by decide⟩

/-- C8 as amended: with default port 200, readonly port refused, version
v1.27.2 and any non-anonymous metrics probe outcome, the issues are exactly
[anonymous_access_enabled (CRITICAL), authorization_mode_alwaysallow
(CRITICAL), version_vulnerable (CRITICAL, listing CVE-2023-5528,
CVE-2023-5529 and CVE-2023-3978)] and the passed checks are exactly
[readonly_port_disabled, metrics_endpoint_secured]. -/
theorem c8_anonymous_scenario (mo : ProbeOutcome)
    (hm : (test_kubelet_endpoint mo).anonymous_access = false) :
    (scan_node (c8Node mo)).issues =
      [anonymousAccessIssue, authorizationModeIssue,
        versionVulnerableIssue (check_version_vulnerabilities "v1.27.2")] ∧
    (versionVulnerableIssue (check_version_vulnerabilities "v1.27.2")).severity
        = "CRITICAL" ∧
    (versionVulnerableIssue (check_version_vulnerabilities "v1.27.2")).description
        = "Kubelet version v1.27.2 has known vulnerabilities: CVE-2023-5528, CVE-2023-5529, CVE-2023-3978" ∧
    (scan_node (c8Node mo)).passed_checks.map (fun p => p.check)
        = ["readonly_port_disabled", "metrics_endpoint_secured"] := by
  have h1 : (check_version_vulnerabilities "v1.27.2").is_vulnerable = true := by decide
  refine ⟨?_, rfl, by decide, ?_⟩ <;>
  · cases mo with
    | response s =>
      have hb : (s == 200) = false := by simpa [test_kubelet_endpoint] using hm
      simp [c8Node, scan_node, truthyOpt, compile_issues, test_kubelet_port,
        test_kubelet_endpoint, row1Issues, row2Issues, row3Issues, row4Issues,
        row5Issues, row1Passed, row2Passed, row3Passed, row4Passed, row5Passed,
        getAnon, getAcc, hb, h1, readonlyDisabledPassed, metricsSecuredAuthPassed,
        metricsSecuredClosedPassed]
    | sslError => decide
    | connectionError => decide
    | timeout => decide
    | otherError m =>
      simp [c8Node, scan_node, truthyOpt, compile_issues, test_kubelet_port,
        test_kubelet_endpoint, row1Issues, row2Issues, row3Issues, row4Issues,
        row5Issues, row1Passed, row2Passed, row3Passed, row4Passed, row5Passed,
        getAnon, getAcc, h1, readonlyDisabledPassed, metricsSecuredClosedPassed]

/-- C8 witness: the amended scenario with the metrics probe refused. -/
theorem c8_anonymous_scenario_witness :
    (scan_node (c8Node ProbeOutcome.connectionError)).issues =
      [anonymousAccessIssue, authorizationModeIssue,
        versionVulnerableIssue (check_version_vulnerabilities "v1.27.2")] ∧
    (versionVulnerableIssue (check_version_vulnerabilities "v1.27.2")).severity
        = "CRITICAL" ∧
    (versionVulnerableIssue (check_version_vulnerabilities "v1.27.2")).description
        = "Kubelet version v1.27.2 has known vulnerabilities: CVE-2023-5528, CVE-2023-5529, CVE-2023-3978" ∧
    (scan_node (c8Node ProbeOutcome.connectionError)).passed_checks.map (fun p => p.check)
        = ["readonly_port_disabled", "metrics_endpoint_secured"] :=
  c8_anonymous_scenario ProbeOutcome.connectionError rfl

end KubeletScanner

namespace KubeletAnalyzer

open KubeletScanner

theorem filterMap_const_if {β γ : Type} (p : β → Bool) (c : γ) :
    ∀ l : List β,
    l.filterMap (fun r => if p r then some c else none) = List.replicate (l.countP p) c := by
  intro l
  induction l with
  | nil => rfl
  | cons b bs ih =>
    cases h : p b <;>
      simp [List.filterMap_cons, h, List.countP_cons, ih, List.replicate_succ]

/-- C9 counterexample: a single node with anonymous access yields two
critical risks whose descriptions both contain "anonymous" (the
anonymous-access issue and the AlwaysAllow-inference issue), and the
analyzer then emits the anonymous-auth remediation line twice — not at most
once per trigger category. -/
theorem c9_counterexample :
    generate_recommendations
        [{ node := "node1", issue := anonymousAccessIssue.description },
          { node := "node1", issue := authorizationModeIssue.description }] =
      [recAnonymous, recAnonymous, recGeneral1, recGeneral2] ∧
    (generate_recommendations
        [{ node := "node1", issue := anonymousAccessIssue.description },
          { node := "node1", issue := authorizationModeIssue.description }]).count
        recAnonymous = 2 :=
  ⟨by decide, by decide⟩

/-- C9 as amended: the recommendation list is the anonymous-auth line once
per critical risk whose description mentions "anonymous", then the
readonly-port line once per critical risk mentioning "readonly", then the
two general hardening lines whenever any critical risk exists, and the
single all-clear line exactly when there are no critical risks; duplicates
appear whenever several risks match the same substring. -/
theorem c9_recommendation_structure (risks : List SummaryEntry) :
    generate_recommendations risks =
      if risks = [] then [recAllClear]
      else
        List.replicate (risks.countP (riskMentions "anonymous")) recAnonymous ++
          List.replicate (risks.countP (riskMentions "readonly")) recReadonly ++
          [recGeneral1, recGeneral2] := by
  unfold generate_recommendations
  cases risks with
  | nil => simp
  | cons r rs =>
    rw [filterMap_const_if, filterMap_const_if]
    simp [List.append_eq_nil]

end KubeletAnalyzer

namespace KubeletScanner

theorem row5Issues_all_version (v : Option VersionVulns) :
    (row5Issues v).all (fun i => i.type == "version_vulnerable") = true := by
  unfold row5Issues
  cases v with
  | none => rfl
  | some vv =>
    cases h : vv.is_vulnerable <;> simp [h, versionVulnerableIssue]

/-- C10: a node with no (truthy) internal IP gets no probe, yet its passed
checks still include readonly_port_disabled and metrics_endpoint_secured,
and the only issue its report can carry is the version one — no port- or
endpoint-related issue fires — because the absent probe results read as
not-accessible in the rule table. -/
theorem c10_no_ip_node (n : NodeInput) (h : truthyOpt n.internal_ip = false) :
    "readonly_port_disabled" ∈ (scan_node n).passed_checks.map (fun p => p.check) ∧
    "metrics_endpoint_secured" ∈ (scan_node n).passed_checks.map (fun p => p.check) ∧
    (scan_node n).issues.all (fun i => i.type == "version_vulnerable") = true := by
  refine ⟨?_, ?_, ?_⟩ <;>
    simp [scan_node, h, compile_issues, row1Issues, row2Issues, row3Issues, row4Issues,
      row1Passed, row2Passed, row3Passed, row4Passed, getAnon, getAcc,
      readonlyDisabledPassed, metricsSecuredClosedPassed, row5Issues_all_version]

/-- C10 witness node: no internal IP recorded in the inventory. -/
def c10Node : NodeInput :=
  { name := "node-noip", internal_ip := none, kubelet_version := some "v1.29.0",
    default_outcome := ProbeOutcome.response 200,
    readonly_outcome := ProbeOutcome.response 200,
    metrics_outcome := ProbeOutcome.response 200 }

/-- C10 witness: the theorem at the concrete no-IP node. -/
theorem c10_no_ip_node_witness :
    "readonly_port_disabled" ∈ (scan_node c10Node).passed_checks.map (fun p => p.check) ∧
    "metrics_endpoint_secured" ∈ (scan_node c10Node).passed_checks.map (fun p => p.check) ∧
    (scan_node c10Node).issues.all (fun i => i.type == "version_vulnerable") = true :=
  c10_no_ip_node c10Node rfl

end KubeletScanner
